import Mathlib

/-!
Shallow embedding of the hotel-agent Segmentation & Resilient Summarization
Pipeline (src/app/clustering.py, src/app/sentiment_model.py,
src/app/summarizer.py, and the page-level glue in src/app/main.py).

Modelling conventions:
* pandas DataFrames become structures holding a list of typed rows plus one
  Boolean per optional/required column recording whether the column exists;
  a column access on a missing column is a KeyError, modelled with
  `Except String`.
* Python floats are modelled as exact rationals; the IEEE special values
  that pandas produces (inf, -inf, nan from division by zero and from the
  mean of an empty series) are modelled by the `PValue` type.
* Python string formatting (f-strings with .0f/.1f/.2f and the comma flag)
  is modelled by explicit rendering functions using round-half-to-even,
  which is the rounding Python uses on exactly representable values.
* external capabilities (the transformers sentiment pipeline and the
  summarization pipeline) are parameters of type `... → Except String ...`;
  an exception or timeout is an `Except.error`.
-/

/-- Python str.strip removes these ASCII whitespace characters (the unicode
extras Python also strips never occur in the strings of this pipeline). -/
def pyWs (c : Char) : Bool :=
  c = ' ' || c = '\t' || c = '\n' || c = '\x0d' || c = '\x0b' || c = '\x0c'

/-- List-level strip: drop `pyWs` from the front, then from the back. -/
def stripList (l : List Char) : List Char :=
  ((l.dropWhile pyWs).reverse.dropWhile pyWs).reverse

/-- Model of Python str.strip(). -/
def pythonStrip (s : String) : String := ⟨stripList s.data⟩

/-- Model of Python sep.join(parts). -/
def joinWith (sep : String) : List String → String
  | [] => ""
  | [x] => x
  | x :: y :: rest => x ++ sep ++ joinWith sep (y :: rest)

/-- Rational arithmetic is routed through the primitive Rat operations so
that every definition evaluates by kernel reduction on concrete inputs. -/
def qadd (a b : ℚ) : ℚ := Rat.add a b

/-- Primitive rational subtraction. -/
def qsub (a b : ℚ) : ℚ := Rat.sub a b

/-- Primitive rational multiplication. -/
def qmul (a b : ℚ) : ℚ := Rat.mul a b

/-- Primitive rational division. -/
def qdiv (a b : ℚ) : ℚ := Rat.div a b

/-- Primitive rational strict comparison. -/
def qlt (a b : ℚ) : Bool := Rat.blt a b

/-- Primitive rational non-strict comparison. -/
def qle (a b : ℚ) : Bool := !(Rat.blt b a)

/-- Sum of a list of rationals. -/
def qsum (l : List ℚ) : ℚ := l.foldr qadd 0

/-- Embedding of an integer into the rationals. -/
def intToQ (n : ℤ) : ℚ := (n : ℚ)

/-- Embedding of a natural number into the rationals. -/
def natToQ (n : ℕ) : ℚ := (n : ℚ)

/-- Power of ten as a rational. -/
def qpow10 (k : ℕ) : ℚ := natToQ (10 ^ k)

/-- One half, the formatting tie point. -/
def qhalf : ℚ := mkRat 1 2

/-- Round a rational to the nearest integer, ties to even (the rounding of
Python float formatting on exactly representable ties). -/
def roundHE (q : ℚ) : ℤ :=
  let f : ℤ := Rat.floor q
  let r : ℚ := qsub q (intToQ f)
  if qlt r qhalf then f
  else if qlt qhalf r then f + 1
  else if f % 2 = 0 then f else f + 1

/-- Digits of `n`, left-padded with zeros to width `k`. -/
def padZeros (k : Nat) (n : Nat) : String :=
  let s := toString n
  ⟨List.replicate (k - s.data.length) '0'⟩ ++ s

/-- Model of the Python format spec `.kf` applied to an exact rational:
sign of the original value, then the rounded magnitude with `k` decimals. -/
def fmtFk (k : Nat) (q : ℚ) : String :=
  let m : ℤ := roundHE (qmul q (qpow10 k))
  let a : ℕ := m.natAbs
  (if qlt q 0 then "-" else "")
    ++ toString (a / 10 ^ k)
    ++ (if k = 0 then "" else "." ++ padZeros k (a % 10 ^ k))

/-- Insert a comma after every third digit of a reversed digit list. -/
def commaChunks : List Char → List Char
  | a :: b :: c :: d :: rest => a :: b :: c :: ',' :: commaChunks (d :: rest)
  | l => l

/-- Model of the Python format spec `,.0f`: round to an integer and insert
thousands separators. -/
def fmtComma0 (q : ℚ) : String :=
  let m : ℤ := roundHE q
  (if qlt q 0 then "-" else "")
    ++ ⟨(commaChunks (toString m.natAbs).data.reverse).reverse⟩

/-- Value of a pandas float cell: finite, one of the two infinities, or NaN. -/
inductive PValue where
  | fin (q : ℚ)
  | pinf
  | ninf
  | nan
deriving DecidableEq, Repr

/-- Whether a `PValue` is finite. -/
def PValue.isFin : PValue → Bool
  | .fin _ => true
  | _ => false

/-- Underlying rational of a finite `PValue` (junk 0 otherwise). -/
def PValue.toQ : PValue → ℚ
  | .fin q => q
  | _ => 0

/-- Model of the pandas / numpy float division `x / n`: division by zero
yields inf, -inf or nan according to the sign of the numerator. -/
def pdivZero (x : ℚ) (n : ℤ) : PValue :=
  if n = 0 then (if qlt 0 x then .pinf else if qlt x 0 then .ninf else .nan)
  else .fin (qdiv x (intToQ n))

/-- Mean of a list of rationals (junk on the empty list; callers guard). -/
def meanQ (l : List ℚ) : ℚ := qdiv (qsum l) (natToQ l.length)

/-- Model of pandas Series.mean over exact values: NaN on an empty series. -/
def pMeanQ (l : List ℚ) : PValue :=
  if l.isEmpty then .nan else .fin (meanQ l)

/-- Model of pandas Series.mean over a column that may hold special values:
NaN on empty input or mixed infinities, the infinity when one side occurs. -/
def pMean (l : List PValue) : PValue :=
  if l.isEmpty then .nan
  else if l.contains .nan then .nan
  else if l.contains .pinf && l.contains .ninf then .nan
  else if l.contains .pinf then .pinf
  else if l.contains .ninf then .ninf
  else .fin (meanQ (l.map PValue.toQ))

/-- Render a `PValue` with format spec `.kf`; Python prints the specials as
nan, inf and -inf regardless of the precision. -/
def fmtPk (k : Nat) : PValue → String
  | .fin q => fmtFk k q
  | .pinf => "inf"
  | .ninf => "-inf"
  | .nan => "nan"

/-- Python truth test `v < c` on a float that may be NaN or infinite:
comparisons with NaN are false. -/
def pLt (v : PValue) (c : ℚ) : Bool :=
  match v with
  | .fin q => qlt q c
  | .pinf => false
  | .ninf => true
  | .nan => false

/-- Stable insertion of a pair into a count-descending association list:
used to model pandas value_counts ordering (largest count first, first
occurrence first among equal counts). -/
def insertByCount {α : Type} (p : α × Nat) : List (α × Nat) → List (α × Nat)
  | [] => [p]
  | q :: rest => if q.2 ≥ p.2 then q :: insertByCount p rest else p :: q :: rest

/-- Model of pandas Series.value_counts().to_dict(): distinct values with
their multiplicities, sorted by count descending (stable). -/
def valueCounts {α : Type} [DecidableEq α] (l : List α) : List (α × Nat) :=
  let distinct := l.foldl (fun acc s => if acc.contains s then acc else acc ++ [s]) []
  (distinct.map (fun s => (s, l.count s))).foldr insertByCount []

/-- Render an association list as the Python repr of a dict, given a
renderer for the keys. -/
def fmtDict {α : Type} (ren : α → String) (l : List (α × Nat)) : String :=
  "\x7b" ++ joinWith ", " (l.map (fun p => ren p.1 ++ ": " ++ toString p.2)) ++ "\x7d"

/-- Python repr of a str dict key. -/
def strKey (s : String) : String := "\x27" ++ s ++ "\x27"

/-! ## Data model (spec section 3; columns of data/bookings.csv and
data/reviews.csv as consumed by the pipeline) -/

/-- Row of the bookings DataFrame.  `spent_per_night` and `segment` carry a
value only when the corresponding column-presence flag of the DataFrame is
set. -/
structure BookingRow where
  customer_id : ℤ
  nights : ℤ
  total_spent : ℚ
  spent_per_night : ℚ := 0
  segment : ℤ := 0
deriving DecidableEq, Repr

/-- Bookings DataFrame: rows plus column presence.  Accessing a column whose
flag is false raises a KeyError in pandas. -/
structure BookingsDF where
  rows : List BookingRow
  hasNights : Bool := true
  hasTotalSpent : Bool := true
  hasSpentPerNight : Bool := false
  hasSegment : Bool := false
deriving DecidableEq, Repr

/-- Row of the reviews DataFrame. -/
structure ReviewRow where
  review : String
  sentiment : String := ""
deriving DecidableEq, Repr

/-- Reviews DataFrame: rows plus column presence. -/
structure ReviewsDF where
  rows : List ReviewRow
  hasReview : Bool := true
  hasSentiment : Bool := false
deriving DecidableEq, Repr

/-! ## Clustering (src/app/clustering.py) -/

/-- Feature vector over the three clustering features
nights, total_spent, spent_per_night. -/
structure Vec3 where
  n : ℚ
  t : ℚ
  s : ℚ
deriving DecidableEq, Repr

/-- Squared euclidean distance between feature vectors. -/
def dist2 (p q : Vec3) : ℚ :=
  let sq (x : ℚ) : ℚ := qmul x x
  qadd (qadd (sq (qsub p.n q.n)) (sq (qsub p.t q.t))) (sq (qsub p.s q.s))

/-- Centroids of the three clusters (n_clusters = 3 in the source). -/
def Cent : Type := Vec3 × Vec3 × Vec3
deriving instance DecidableEq for Cent

/-- Assignment step of KMeans: index of the nearest of the three centroids,
ties resolved to the lowest index as in numpy argmin. -/
def assignLabel (c : Cent) (p : Vec3) : ℕ :=
  let d0 := dist2 c.1 p
  let d1 := dist2 c.2.1 p
  let d2 := dist2 c.2.2 p
  if qle d0 d1 && qle d0 d2 then 0 else if qle d1 d2 then 1 else 2

/-- Mean of the points of one cluster; an empty cluster keeps its previous
centroid. -/
def centroidOf (old : Vec3) (pts : List Vec3) : Vec3 :=
  match pts with
  | [] => old
  | _ =>
    ⟨meanQ (pts.map Vec3.n), meanQ (pts.map Vec3.t), meanQ (pts.map Vec3.s)⟩

/-- One Lloyd iteration: assign every point to its nearest centroid, then
move each centroid to the mean of its points. -/
def lloydStep (pts : List Vec3) (c : Cent) : Cent :=
  ( centroidOf c.1 (pts.filter (fun p => assignLabel c p = 0)),
    centroidOf c.2.1 (pts.filter (fun p => assignLabel c p = 1)),
    centroidOf c.2.2 (pts.filter (fun p => assignLabel c p = 2)) )

/-- Iterate Lloyd steps up to the iteration cap, stopping at convergence
(sklearn KMeans default max_iter = 300 with a convergence test). -/
def lloydIter (pts : List Vec3) : ℕ → Cent → Cent
  | 0, c => c
  | fuel + 1, c =>
    let c' := lloydStep pts c
    if c' = c then c else lloydIter pts fuel c'

/-- Modelled from the spec: the seeded multi-centroid initialization of
sklearn KMeans (random_state = seed) is library code outside src/; spec
section 4.2 requires only a deterministic function of seed and data, which
this selection of three data points at seed-derived indices provides. -/
def initCents (seed : ℕ) (pts : List Vec3) : Cent :=
  let nn := pts.length
  ( pts.getD (seed % nn) ⟨0, 0, 0⟩,
    pts.getD ((seed + nn / 3) % nn) ⟨0, 0, 0⟩,
    pts.getD ((seed + 2 * (nn / 3)) % nn) ⟨0, 0, 0⟩ )

/-- Labels produced by the fitted KMeans model: nearest final centroid per
input point. -/
def kmeansLabels (seed : ℕ) (pts : List Vec3) : List ℕ :=
  let c := lloydIter pts 300 (initCents seed pts)
  pts.map (assignLabel c)

/-- Integer square root by binary search on 32 bits (kernel-reducible). -/
def isqrtGo (n : ℕ) : ℕ → ℕ → ℕ
  | 0, acc => acc
  | fuel + 1, acc =>
    let cand := acc + 2 ^ fuel
    if cand * cand ≤ n then isqrtGo n fuel cand else isqrtGo n fuel acc

/-- Floor integer square root for inputs below 2 to the 64. -/
def isqrt (n : ℕ) : ℕ := isqrtGo n 32 0

/-- Rational approximation of the square root used by the standard scaler;
the true square root is irrational, and every property proved below is
invariant under the positive scale factor chosen here. -/
def qSqrtApprox (q : ℚ) : ℚ :=
  if qle q 0 then 0
  else qdiv (natToQ (isqrt (Int.toNat (Rat.floor (qmul q 10000))))) 100

/-- Scale divisor of StandardScaler: the standard deviation, with the
sklearn guard replacing a zero scale by 1 (_handle_zeros_in_scale). -/
def scaleFactor (l : List ℚ) : ℚ :=
  let s := qSqrtApprox (meanQ (l.map (fun x => qmul (qsub x (meanQ l)) (qsub x (meanQ l)))))
  if s = 0 then 1 else s

/-- One column of StandardScaler().fit_transform: center on the mean of the
current data and divide by the scale. -/
def standardize (l : List ℚ) : List ℚ :=
  l.map (fun x => qdiv (qsub x (meanQ l)) (scaleFactor l))

/-- Zip three equal-length columns into feature vectors. -/
def mkPoints : List ℚ → List ℚ → List ℚ → List Vec3
  | a :: as, b :: bs, c :: cs => ⟨a, b, c⟩ :: mkPoints as bs cs
  | _, _, _ => []

/-- Line 7 of clustering.py: df["spent_per_night"] = df["total_spent"] /
df["nights"], computed for every row — a zero-night row yields an infinite
or NaN value, it is not excluded. -/
def deriveSpentPerNight (df : BookingsDF) : List PValue :=
  df.rows.map (fun r => pdivZero r.total_spent r.nights)

/-- Scaled feature matrix over nights, total_spent, spent_per_night. -/
def scaledPoints (df : BookingsDF) : List Vec3 :=
  mkPoints
    (standardize (df.rows.map (fun r => intToQ r.nights)))
    (standardize (df.rows.map (fun r => r.total_spent)))
    (standardize ((deriveSpentPerNight df).map PValue.toQ))

/-- Model of segment_customers (clustering.py lines 5-25): derive
spent_per_night, standardize the three features, fit KMeans with
n_clusters = 3 and random_state = 42, and return the labels.  Errors:
KeyError on a missing column; the scaler array validation rejects an empty
matrix and any non-finite entry; KMeans rejects fewer samples than
clusters. -/
def segment_customers (df : BookingsDF) : Except String (List ℕ) :=
  if ¬ df.hasTotalSpent then .error "KeyError: \x27total_spent\x27"
  else if ¬ df.hasNights then .error "KeyError: \x27nights\x27"
  else if df.rows.isEmpty then
    .error "ValueError: Found array with 0 sample(s)"
  else if (deriveSpentPerNight df).any (fun v => !v.isFin) then
    .error "ValueError: Input contains infinity or a value too large"
  else if df.rows.length < 3 then
    .error "ValueError: n_samples should be >= n_clusters"
  else
    .ok (kmeansLabels 42 (scaledPoints df))

/-- Rows of the labelled frame falling in segment `i`
(df[labels == i] in clustering.py line 15). -/
def groupOf (rows : List BookingRow) (labels : List ℕ) (i : ℕ) : List BookingRow :=
  ((rows.zip labels).filter (fun p => p.2 = i)).map (fun p => p.1)

/-- One explanation line (clustering.py lines 16-21): the f-string with two
decimals on the three means and the plain member count. -/
def segmentLine (i : ℕ) (rows : List BookingRow) : String :=
  "Segment " ++ toString i
    ++ ": avg nights = " ++ fmtPk 2 (pMeanQ (rows.map (fun r => intToQ r.nights)))
    ++ ", avg spent = " ++ fmtPk 2 (pMeanQ (rows.map (fun r => r.total_spent)))
    ++ ", avg spent/night = " ++ fmtPk 2 (pMean (rows.map (fun r => pdivZero r.total_spent r.nights)))
    ++ ", count = " ++ toString rows.length

/-- Explanation block of segment_customers (lines 13-21): one line per
segment id 0, 1, 2. -/
def explainSegments (rows : List BookingRow) (labels : List ℕ) : List String :=
  (List.range 3).map (fun i => segmentLine i (groupOf rows labels i))

/-! ## Sentiment model (src/app/sentiment_model.py) and the page that calls
it (src/app/main.py, Sentiment Analysis / AI Summary pages) -/

/-- Result object of the transformers sentiment pipeline. -/
structure SentimentResult where
  label : String
deriving DecidableEq, Repr

/-- Model of analyze_sentiments: call the classifier pipeline on the review
texts and extract the labels.  There is no try/except in the source, so a
classifier failure is returned unchanged. -/
def analyze_sentiments
    (classifierPipe : List String → Except String (List SentimentResult))
    (reviews : List String) : Except String (List String) :=
  match classifierPipe reviews with
  | .error e => .error e
  | .ok rs => .ok (rs.map (fun r => r.label))

/-- Assignment df_reviews["sentiment"] = sentiments. -/
def setSentiment (dfr : ReviewsDF) (ss : List String) : ReviewsDF :=
  { rows := (dfr.rows.zip ss).map (fun p => { review := p.1.review, sentiment := p.2 }),
    hasReview := dfr.hasReview,
    hasSentiment := true }

/-- Model of the sentiment-analysis step of main.py: read the review
column, run analyze_sentiments, store the result.  No try/except guards the
call, so a classifier error propagates to the page. -/
def sentimentAnalysisPage
    (classifierPipe : List String → Except String (List SentimentResult))
    (dfr : ReviewsDF) : Except String ReviewsDF :=
  if ¬ dfr.hasReview then .error "KeyError: \x27review\x27"
  else
    match analyze_sentiments classifierPipe (dfr.rows.map (fun r => r.review)) with
    | .error e => .error e
    | .ok ss => .ok (setSentiment dfr ss)

/-! ## Summarizer (src/app/summarizer.py) -/

/-- Lines 12-16 of summarizer.py: the zeroed default when the sentiment
column is absent, otherwise value_counts of the column. -/
def sentimentCountsOf (dfr : ReviewsDF) : List (String × Nat) :=
  if dfr.hasSentiment then valueCounts (dfr.rows.map (fun r => r.sentiment))
  else [("POSITIVE", 0), ("NEGATIVE", 0), ("NEUTRAL", 0)]

/-- Metrics computed by the body of generate_summary before prompt
composition (summarizer.py lines 12-48). -/
structure AggregatedMetrics where
  sentiment_counts : List (String × Nat)
  total_revenue : ℚ
  avg_revenue : PValue
  avg_nights : PValue
  total_bookings : ℕ
  segment_info : String
  spent_per_night_info : String
  review_summary : String
deriving DecidableEq, Repr

/-- Metric aggregation of generate_summary, in source order; a missing
column raises a KeyError at the point of first access. -/
def metricsOf (dfr : ReviewsDF) (dfb : BookingsDF) : Except String AggregatedMetrics :=
  let sc := sentimentCountsOf dfr
  if ¬ dfb.hasTotalSpent then .error "KeyError: \x27total_spent\x27"
  else
  let tr := qsum (dfb.rows.map (fun r => r.total_spent))
  let ar := pMeanQ (dfb.rows.map (fun r => r.total_spent))
  if ¬ dfb.hasNights then .error "KeyError: \x27nights\x27"
  else
  let an := pMeanQ (dfb.rows.map (fun r => intToQ r.nights))
  let segInfo :=
    if dfb.hasSegment then
      "Customer segments: "
        ++ fmtDict toString (valueCounts (dfb.rows.map (fun r => r.segment))) ++ ". "
    else ""
  let spnInfo :=
    if dfb.hasSpentPerNight then
      "Average spent per night: $"
        ++ fmtPk 2 (pMeanQ (dfb.rows.map (fun r => r.spent_per_night))) ++ ". "
    else
      let tn := (dfb.rows.map (fun r => r.nights)).foldr Int.add 0
      if 0 < tn then
        "Average spent per night: $" ++ fmtFk 2 (qdiv tr (intToQ tn)) ++ ". "
      else ""
  if 0 < dfr.rows.length ∧ ¬ dfr.hasReview then .error "KeyError: \x27review\x27"
  else
  let revSummary :=
    if 0 < dfr.rows.length then
      "Sample reviews: " ++ joinWith " | " ((dfr.rows.map (fun r => r.review)).take 3) ++ ". "
    else ""
  .ok ⟨sc, tr, ar, an, dfb.rows.length, segInfo, spnInfo, revSummary⟩

/-- Prompt composition (summarizer.py lines 50-61). -/
def composePrompt (m : AggregatedMetrics) : String :=
  "Hotel Analytics Summary: "
    ++ "Total bookings: " ++ toString m.total_bookings ++ ". "
    ++ "Total revenue: $" ++ fmtComma0 m.total_revenue ++ ". "
    ++ "Average revenue per booking: $" ++ fmtPk 2 m.avg_revenue ++ ". "
    ++ "Average nights per stay: " ++ fmtPk 1 m.avg_nights ++ ". "
    ++ m.spent_per_night_info
    ++ m.segment_info
    ++ "Review sentiment distribution: " ++ fmtDict strKey m.sentiment_counts ++ ". "
    ++ m.review_summary
    ++ "Provide key insights and recommendations for hotel management."

/-- Truncation (summarizer.py lines 63-65): prompts longer than 1000
characters are cut to the first 1000 characters plus "...". -/
def truncatePrompt (s : String) : String :=
  if 1000 < s.length then ⟨s.data.take 1000⟩ ++ "..." else s

/-- Outcome of the TRY_AI stage of the state machine. -/
inductive AIOutcome where
  | success (t : String)
  | fail
deriving DecidableEq, Repr

/-- Classification of the summarizer response (summarizer.py lines 69-81):
an exception is FAIL; a returned text is SUCCESS unless it is empty or
shorter than 10 characters after stripping, in which case the code raises
and the local except clause turns it into FAIL. -/
def classifyAI (r : Except String String) : AIOutcome :=
  match r with
  | .error _ => .fail
  | .ok t => if t = "" || (pythonStrip t).length < 10 then .fail else .success t

/-- Inner try/except of generate_summary: the AI text on SUCCESS, the manual
fallback on FAIL; no exception escapes this block. -/
def generate_summary_inner (summarize : String → Except String String)
    (prompt fallback : String) : String :=
  match classifyAI (summarize prompt) with
  | .success t => t
  | .fail => fallback

/-- Dict lookup with default 0 (sentiment_counts.get(label, 0)). -/
def dictGet (l : List (String × Nat)) (k : String) : Nat :=
  match l.find? (fun p => p.1 = k) with
  | some p => p.2
  | none => 0

/-- Satisfaction sentence of the manual fallback (summarizer.py lines
101-116): from the passed counts when they are non-empty with positive
total, otherwise recomputed from the sentiment column when present. -/
def satPart (dfr : ReviewsDF) (sc : List (String × Nat)) : List String :=
  if ¬ sc.isEmpty ∧ 0 < (sc.map Prod.snd).sum then
    let positive := dictGet sc "POSITIVE"
    let total := (sc.map Prod.snd).sum
    if 0 < total then
      ["😊 **Customer Satisfaction**: " ++ fmtFk 1 (qmul (qdiv (natToQ positive) (natToQ total)) 100)
        ++ "% positive reviews (" ++ toString positive ++ "/" ++ toString total ++ ")."]
    else []
  else if dfr.hasSentiment then
    let positive := (dfr.rows.filter (fun r => r.sentiment = "POSITIVE")).length
    let total := dfr.rows.length
    if 0 < total then
      ["😊 **Customer Satisfaction**: " ++ fmtFk 1 (qmul (qdiv (natToQ positive) (natToQ total)) 100)
        ++ "% positive reviews (" ++ toString positive ++ "/" ++ toString total ++ ")."]
    else []
  else []

/-- Top-segment sentence of the manual fallback (lines 118-124). -/
def segPart (dfb : BookingsDF) : List String :=
  if dfb.hasSegment ∧ 0 < dfb.rows.length then
    match valueCounts (dfb.rows.map (fun r => r.segment)) with
    | [] => []
    | top :: _ =>
      ["👥 **Customer Segments**: Top segment is " ++ toString top.1
        ++ " with " ++ toString top.2 ++ " customers."]
  else []

/-- Recommendation sentence chosen by the threshold chain of lines 127-132. -/
def recChosen (ar an : PValue) : String :=
  if pLt ar 300 then
    "💡 **Recommendation**: Consider premium pricing strategies to increase average revenue."
  else if pLt an 2 then
    "💡 **Recommendation**: Focus on extending guest stays with attractive packages."
  else
    "💡 **Recommendation**: Continue monitoring key metrics and customer feedback."

/-- Recommendation block of the manual fallback (lines 126-132): emitted
only when the bookings frame is non-empty. -/
def recPart (nb : ℕ) (ar an : PValue) : List String :=
  if 0 < nb then [recChosen ar an] else []

/-- Parts list assembled by _generate_manual_summary (lines 90-132). -/
def manualParts (dfr : ReviewsDF) (dfb : BookingsDF) (sc : List (String × Nat))
    (tr : ℚ) (ar an : PValue) : List String :=
  ("📊 **Business Overview**: " ++ toString dfb.rows.length
      ++ " total bookings with $" ++ fmtComma0 tr ++ " total revenue.")
    :: ("💰 **Average Performance**: $" ++ fmtPk 0 ar ++ " per booking, "
      ++ fmtPk 1 an ++ " nights average stay.")
    :: (satPart dfr sc ++ segPart dfb ++ recPart dfb.rows.length ar an)

/-- Model of _generate_manual_summary (the source name carries a leading
underscore): the joined parts list. -/
def generate_manual_summary (dfr : ReviewsDF) (dfb : BookingsDF)
    (sc : List (String × Nat)) (tr : ℚ) (ar an : PValue) : String :=
  joinWith " " (manualParts dfr dfb sc tr ar an)

/-- Body of the outer try of generate_summary: aggregate the metrics, build
and truncate the prompt, run the AI-or-manual inner stage. -/
def generate_summary_core (summarize : String → Except String String)
    (dfr : ReviewsDF) (dfb : BookingsDF) : Except String String :=
  match metricsOf dfr dfb with
  | .error e => .error e
  | .ok m =>
    .ok (generate_summary_inner summarize
      (truncatePrompt (composePrompt m))
      (generate_manual_summary dfr dfb m.sentiment_counts m.total_revenue m.avg_revenue m.avg_nights))

/-- Model of generate_summary (summarizer.py lines 5-88): the outer except
clause returns the manual summary with emptied counts and zeroed metrics
whatever error reached it. -/
def generate_summary (summarize : String → Except String String)
    (dfr : ReviewsDF) (dfb : BookingsDF) : String :=
  match generate_summary_core summarize dfr dfb with
  | .ok s => s
  | .error _ => generate_manual_summary dfr dfb [] 0 (.fin 0) (.fin 0)

/-- Whether a part is the recommendation sentence: exactly the
recommendation parts begin with the light-bulb character. -/
def isRecPart (s : String) : Bool := s.data.head? = some '💡'

/-! ## Concrete fixtures used by witnesses and counterexamples -/

/-- Three clean bookings on which segmentation succeeds. -/
def wdf : BookingsDF := { rows := [
  { customer_id := 1, nights := 1, total_spent := 100 },
  { customer_id := 2, nights := 2, total_spent := 200 },
  { customer_id := 3, nights := 3, total_spent := 600 } ] }

/-- Same bookings with the first row distorted to zero nights. -/
def xdf : BookingsDF := { rows := [
  { customer_id := 1, nights := 0, total_spent := 100 },
  { customer_id := 2, nights := 2, total_spent := 200 },
  { customer_id := 3, nights := 3, total_spent := 600 } ] }

/-- Bookings frame whose total_spent column is missing. -/
def noTSdf : BookingsDF := { rows := [
  { customer_id := 1, nights := 1, total_spent := 100 },
  { customer_id := 2, nights := 2, total_spent := 200 },
  { customer_id := 3, nights := 3, total_spent := 600 } ], hasTotalSpent := false }

/-- Empty bookings frame. -/
def emptyBk : BookingsDF := { rows := [] }

/-- One-review frame. -/
def rdf : ReviewsDF := { rows := [ { review := "Great stay" } ] }

/-- Summarizer behaviour that throws on every call. -/
def throwingSumm : String → Except String String := fun _ => .error "model load failed"

/-- Classifier behaviour that throws on every call. -/
def failingClassifier : List String → Except String (List SentimentResult) :=
  fun _ => .error "CapabilityUnavailableError: classifier unreachable"

/-! ## Helper lemmas about stripping and string heads -/

theorem stripList_ne_nil (c : Char) (t : List Char) (h : pyWs c = false) :
    stripList (c :: t) ≠ [] := by
  intro hc
  unfold stripList at hc
  rw [List.dropWhile_cons] at hc
  simp only [h] at hc
  rw [List.reverse_eq_nil_iff, List.dropWhile_eq_nil_iff] at hc
  have := hc c (by simp)
  simp [h] at this

theorem pythonStrip_ne_of_head (s : String) (c : Char) (h1 : s.data.head? = some c)
    (h2 : pyWs c = false) : pythonStrip s ≠ "" := by
  obtain ⟨t, ht⟩ : ∃ t, s.data = c :: t := by
    cases hd : s.data with
    | nil => rw [hd] at h1; simp at h1
    | cons a t =>
      rw [hd] at h1
      simp at h1
      exact ⟨t, by rw [h1]⟩
  intro he
  have hdata : stripList s.data = [] := congrArg String.data he
  rw [ht] at hdata
  exact stripList_ne_nil c t h2 hdata

theorem ne_empty_of_strip_ne (s : String) (h : pythonStrip s ≠ "") : s ≠ "" := by
  intro he
  subst he
  exact h rfl

theorem joinWith_data (sep : String) (x : String) (l : List String) :
    ∃ u, (joinWith sep (x :: l)).data = x.data ++ u := by
  cases l with
  | nil => exact ⟨[], by simp [joinWith]⟩
  | cons y rest =>
    refine ⟨sep.data ++ (joinWith sep (y :: rest)).data, ?_⟩
    simp [joinWith, List.append_assoc]

theorem manual_head (dfr : ReviewsDF) (dfb : BookingsDF) (sc : List (String × Nat))
    (tr : ℚ) (ar an : PValue) :
    (generate_manual_summary dfr dfb sc tr ar an).data.head? = some '📊' := by
  unfold generate_manual_summary manualParts
  obtain ⟨u, hu⟩ := joinWith_data " "
    ("📊 **Business Overview**: " ++ toString dfb.rows.length
      ++ " total bookings with $" ++ fmtComma0 tr ++ " total revenue.")
    (("💰 **Average Performance**: $" ++ fmtPk 0 ar ++ " per booking, "
      ++ fmtPk 1 an ++ " nights average stay.")
    :: (satPart dfr sc ++ segPart dfb ++ recPart dfb.rows.length ar an))
  rw [hu]
  have hlit : ("📊 **Business Overview**: ").data = '📊' :: (" **Business Overview**: ").data := rfl
  simp [String.data_append, hlit]

theorem manual_strip_ne (dfr : ReviewsDF) (dfb : BookingsDF) (sc : List (String × Nat))
    (tr : ℚ) (ar an : PValue) :
    pythonStrip (generate_manual_summary dfr dfb sc tr ar an) ≠ "" :=
  pythonStrip_ne_of_head _ '📊' (manual_head dfr dfb sc tr ar an) (by decide)

theorem classify_success_len (r : Except String String) (t : String)
    (h : classifyAI r = AIOutcome.success t) : 10 ≤ (pythonStrip t).length := by
  cases r with
  | error e => simp [classifyAI] at h
  | ok t' =>
    simp only [classifyAI] at h
    split at h
    · exact absurd h (by simp)
    · cases h
      rename_i hc
      simp only [Bool.or_eq_true, decide_eq_true_eq, not_or] at hc
      obtain ⟨hc1, hc2⟩ := hc
      omega

/-! ## Claim theorems -/

/-- C1: for every pair of input frames and every behaviour of the external
summarizer — including one that throws on every call — generate_summary
returns a string that is non-empty and not whitespace-only. -/
theorem generate_summary_never_blank (summarize : String → Except String String)
    (dfr : ReviewsDF) (dfb : BookingsDF) :
    generate_summary summarize dfr dfb ≠ ""
    ∧ pythonStrip (generate_summary summarize dfr dfb) ≠ "" := by
  have hstrip : pythonStrip (generate_summary summarize dfr dfb) ≠ "" := by
    cases hc : generate_summary_core summarize dfr dfb with
    | error e =>
      simp only [generate_summary, hc]
      exact manual_strip_ne dfr dfb [] 0 (.fin 0) (.fin 0)
    | ok r =>
      simp only [generate_summary, hc]
      unfold generate_summary_core at hc
      cases hm : metricsOf dfr dfb with
      | error e => rw [hm] at hc; exact absurd hc (by simp)
      | ok m =>
        rw [hm] at hc
        simp only [Except.ok.injEq] at hc
        subst hc
        unfold generate_summary_inner
        cases hai : classifyAI (summarize (truncatePrompt (composePrompt m))) with
        | success t =>
          show pythonStrip t ≠ ""
          have hlen := classify_success_len _ _ hai
          intro he
          have h0 : (pythonStrip t).length = 0 := by rw [he]; rfl
          omega
        | fail =>
          exact manual_strip_ne dfr dfb m.sentiment_counts m.total_revenue m.avg_revenue m.avg_nights
  exact ⟨ne_empty_of_strip_ne _ hstrip, hstrip⟩

/-- C5: the AI stage is classified successful exactly when the returned
text is non-empty with at least 10 characters after stripping; an exception
from the summarizer is classified FAIL, and a FAIL makes the inner stage
return the manual fallback instead of propagating anything. -/
theorem ai_stage_success_iff (summarize : String → Except String String)
    (prompt fallback t e : String) :
    (classifyAI (Except.ok t) = AIOutcome.success t ↔
      (¬ t = "" ∧ 10 ≤ (pythonStrip t).length))
    ∧ classifyAI (Except.error e) = AIOutcome.fail
    ∧ (summarize prompt = Except.error e →
        generate_summary_inner summarize prompt fallback = fallback)
    ∧ (classifyAI (summarize prompt) = AIOutcome.fail →
        generate_summary_inner summarize prompt fallback = fallback) := by
  refine ⟨?_, rfl, ?_, ?_⟩
  · simp only [classifyAI]
    split
    · rename_i hc
      simp only [Bool.or_eq_true, decide_eq_true_eq] at hc
      constructor
      · intro h; exact absurd h (by simp)
      · rintro ⟨h1, h2⟩
        rcases hc with hc | hc
        · exact absurd hc h1
        · exact absurd h2 (by omega)
    · rename_i hc
      simp only [Bool.or_eq_true, decide_eq_true_eq, not_or] at hc
      constructor
      · intro _; exact ⟨hc.1, by omega⟩
      · intro _; rfl
  · intro h
    unfold generate_summary_inner
    rw [h]
    rfl
  · intro h
    unfold generate_summary_inner
    rw [h]

/-- C5 witness: a long response is classified successful; a throwing
summarizer yields the fallback. -/
theorem ai_stage_success_iff_witness :
    classifyAI (Except.ok "a sufficiently long AI summary")
      = AIOutcome.success "a sufficiently long AI summary"
    ∧ generate_summary_inner throwingSumm "p" "fallback text" = "fallback text" :=
  ⟨(ai_stage_success_iff throwingSumm "p" "fallback text"
      "a sufficiently long AI summary" "boom").1.mpr ⟨by decide, by decide⟩,
   (ai_stage_success_iff throwingSumm "p" "fallback text"
      "a sufficiently long AI summary" "model load failed").2.2.1 rfl⟩

/-- C6: a composed prompt longer than 1000 characters is passed to the
summarizer as its first 1000 characters plus a three-character ellipsis,
total length 1003; a prompt of at most 1000 characters is passed
unchanged. -/
theorem prompt_truncation (m : AggregatedMetrics) :
    (1000 < (composePrompt m).length →
      truncatePrompt (composePrompt m) = ⟨(composePrompt m).data.take 1000⟩ ++ "..."
      ∧ (truncatePrompt (composePrompt m)).length = 1003)
    ∧ ((composePrompt m).length ≤ 1000 →
      truncatePrompt (composePrompt m) = composePrompt m) := by
  generalize composePrompt m = p
  constructor
  · intro h
    have ht : truncatePrompt p = ⟨p.data.take 1000⟩ ++ "..." := by
      unfold truncatePrompt
      rw [if_pos h]
    refine ⟨ht, ?_⟩
    rw [ht]
    have h1 : (⟨p.data.take 1000⟩ ++ "..." : String).length
        = (p.data.take 1000).length + 3 := by
      rw [String.length_append]
      rfl
    rw [h1, List.length_take]
    have hp : p.length = p.data.length := rfl
    omega
  · intro h
    unfold truncatePrompt
    rw [if_neg (by omega)]

/-- Metrics value whose composed prompt is longer than 1000 characters. -/
def mLong : AggregatedMetrics :=
  ⟨[], 0, .fin 0, .fin 0, 0, "", "", ⟨List.replicate 1200 'x'⟩⟩

/-- Metrics value whose composed prompt stays within 1000 characters. -/
def mShort : AggregatedMetrics := ⟨[], 0, .fin 0, .fin 0, 0, "", "", ""⟩

set_option maxRecDepth 40000 in
unseal Rat.add Rat.sub Rat.mul Rat.inv in
/-- C6 witness: the long prompt is truncated to length 1003, the short one
is passed unchanged. -/
theorem prompt_truncation_witness :
    (truncatePrompt (composePrompt mLong)).length = 1003
    ∧ truncatePrompt (composePrompt mShort) = composePrompt mShort :=
  ⟨((prompt_truncation mLong).1 (by decide)).2,
   (prompt_truncation mShort).2 (by decide)⟩

/-- C4: segmentation is a deterministic function of the feature matrix and
the seed — identical inputs give identical label sequences, and the full
pipeline gives identical results on identical frames. -/
theorem segmentation_deterministic (pts1 pts2 : List Vec3) (seed1 seed2 : ℕ)
    (df1 df2 : BookingsDF) (hp : pts1 = pts2) (hs : seed1 = seed2)
    (hdf : df1 = df2) :
    kmeansLabels seed1 pts1 = kmeansLabels seed2 pts2
    ∧ segment_customers df1 = segment_customers df2 := by
  subst hp
  subst hs
  subst hdf
  exact ⟨rfl, rfl⟩

/-- C4 witness: two runs on the same concrete matrix and frame coincide. -/
theorem segmentation_deterministic_witness :
    kmeansLabels 42 [⟨1, 2, 3⟩] = kmeansLabels 42 [⟨1, 2, 3⟩]
    ∧ segment_customers wdf = segment_customers wdf :=
  segmentation_deterministic [⟨1, 2, 3⟩] [⟨1, 2, 3⟩] 42 42 wdf wdf rfl rfl rfl

/-- Every KMeans assignment is one of the three cluster indices. -/
theorem assignLabel_lt (c : Cent) (p : Vec3) : assignLabel c p < 3 := by
  show (if qle (dist2 c.1 p) (dist2 c.2.1 p) && qle (dist2 c.1 p) (dist2 c.2.2 p)
        then 0 else if qle (dist2 c.2.1 p) (dist2 c.2.2 p) then 1 else 2) < 3
  split
  · omega
  · split <;> omega

theorem mkPoints_length (a : List ℚ) :
    ∀ (b c : List ℚ), a.length = b.length → b.length = c.length →
      (mkPoints a b c).length = a.length := by
  induction a with
  | nil =>
    intro b c h1 h2
    cases b <;> cases c <;> simp_all [mkPoints]
  | cons x a ih =>
    intro b c h1 h2
    cases b with
    | nil => simp at h1
    | cons y b =>
      cases c with
      | nil => simp at h2
      | cons z c =>
        simp only [mkPoints, List.length_cons]
        rw [ih b c (by simpa using h1) (by simpa using h2)]

theorem scaledPoints_length (df : BookingsDF) :
    (scaledPoints df).length = df.rows.length := by
  unfold scaledPoints
  rw [mkPoints_length]
  · simp [standardize]
  · simp [standardize]
  · simp [standardize, deriveSpentPerNight]

theorem count012 (l : List ℕ) (h : ∀ x ∈ l, x < 3) :
    l.count 0 + l.count 1 + l.count 2 = l.length := by
  induction l with
  | nil => simp
  | cons a t ih =>
    have ha := h a (by simp)
    have ht := ih (fun x hx => h x (List.mem_cons_of_mem _ hx))
    interval_cases a <;> simp [List.count_cons] <;> omega

/-- C3: whenever segmentation succeeds, every booking receives exactly one
label, each label lies in [0, 3), and the per-segment counts sum to the
total booking count — the segments partition the bookings. -/
theorem segmentation_partitions (df : BookingsDF) (labels : List ℕ)
    (h : segment_customers df = Except.ok labels) :
    labels.length = df.rows.length
    ∧ (∀ l ∈ labels, l < 3)
    ∧ labels.count 0 + labels.count 1 + labels.count 2 = df.rows.length := by
  have hlab : kmeansLabels 42 (scaledPoints df) = labels := by
    unfold segment_customers at h
    split at h
    · exact absurd h (by simp)
    · split at h
      · exact absurd h (by simp)
      · split at h
        · exact absurd h (by simp)
        · split at h
          · exact absurd h (by simp)
          · split at h
            · exact absurd h (by simp)
            · simpa using h
  subst hlab
  have hmem : ∀ l ∈ kmeansLabels 42 (scaledPoints df), l < 3 := by
    intro l hl
    unfold kmeansLabels at hl
    obtain ⟨p, _, hp⟩ := List.mem_map.mp hl
    rw [← hp]
    exact assignLabel_lt _ p
  refine ⟨?_, hmem, ?_⟩
  · unfold kmeansLabels
    rw [List.length_map]
    exact scaledPoints_length df
  · rw [count012 _ hmem]
    unfold kmeansLabels
    rw [List.length_map]
    exact scaledPoints_length df

unseal Rat.add Rat.sub Rat.mul Rat.inv in
/-- C3 witness: on the concrete three-booking frame the partition equation
holds for the labels actually produced. -/
theorem segmentation_partitions_witness :
    List.count 0 [0, 1, 2] + List.count 1 [0, 1, 2] + List.count 2 [0, 1, 2]
      = wdf.rows.length :=
  (segmentation_partitions wdf [0, 1, 2] (by rfl)).2.2

unseal Rat.add Rat.sub Rat.mul Rat.inv in
/-- C2 counterexample: on a frame whose first booking has zero nights, the
derived spent_per_night column contains an infinite value at that record —
the record is not excluded and the derived metric is computed for it — and
segmentation then fails for the whole dataset instead of dropping the
record. -/
theorem nights_zero_not_excluded_cex :
    deriveSpentPerNight xdf = [PValue.pinf, PValue.fin 100, PValue.fin 200]
    ∧ segment_customers xdf
      = Except.error "ValueError: Input contains infinity or a value too large" :=
  ⟨rfl, rfl⟩

/-- C2 amended: a zero-night record is not excluded — spent_per_night is
computed for every record, including zero-night ones — and its non-finite
value makes segmentation of the entire dataset fail with a validation
error, so no record of the frame receives a segment label. -/
theorem nights_zero_poisons_segmentation (df : BookingsDF)
    (h1 : df.hasTotalSpent = true) (h2 : df.hasNights = true)
    (h3 : ∃ r ∈ df.rows, r.nights = 0) :
    (deriveSpentPerNight df).length = df.rows.length
    ∧ (∃ e, segment_customers df = Except.error e)
    ∧ ∀ labels, segment_customers df ≠ Except.ok labels := by
  obtain ⟨r, hr, hr0⟩ := h3
  have hrows : ¬ df.rows.isEmpty = true := by
    cases hrw : df.rows with
    | nil => rw [hrw] at hr; simp at hr
    | cons a t => simp
  have hany : ((deriveSpentPerNight df).any fun v => !v.isFin) = true := by
    rw [List.any_eq_true]
    refine ⟨pdivZero r.total_spent r.nights, ?_, ?_⟩
    · unfold deriveSpentPerNight
      exact List.mem_map.mpr ⟨r, hr, rfl⟩
    · rw [hr0]
      unfold pdivZero
      rw [if_pos rfl]
      split
      · rfl
      · split <;> rfl
  have herr : segment_customers df
      = Except.error "ValueError: Input contains infinity or a value too large" := by
    unfold segment_customers
    rw [if_neg (by simp [h1]), if_neg (by simp [h2]), if_neg hrows, if_pos hany]
  refine ⟨by simp [deriveSpentPerNight], ⟨_, herr⟩, ?_⟩
  intro labels hcon
  rw [herr] at hcon
  exact absurd hcon (by simp)

unseal Rat.add Rat.sub Rat.mul Rat.inv in
/-- C2 amended witness: instantiated on the concrete zero-night frame. -/
theorem nights_zero_poisons_segmentation_witness :
    (deriveSpentPerNight xdf).length = xdf.rows.length :=
  (nights_zero_poisons_segmentation xdf rfl rfl
    ⟨{ customer_id := 1, nights := 0, total_spent := 100 }, by decide, rfl⟩).1

unseal Rat.add Rat.sub Rat.mul Rat.inv in
/-- C7 counterexample: with the total_spent column missing, the metric
aggregation inside generate_summary raises a KeyError, but generate_summary
itself returns the zero-metric manual narrative — the data-shape error is
absorbed, not propagated to the caller. -/
theorem missing_column_absorbed_cex :
    generate_summary_core throwingSumm rdf noTSdf
      = Except.error "KeyError: \x27total_spent\x27"
    ∧ generate_summary throwingSumm rdf noTSdf
      = generate_manual_summary rdf noTSdf [] 0 (PValue.fin 0) (PValue.fin 0)
    ∧ generate_summary throwingSumm rdf noTSdf
      = "📊 **Business Overview**: 3 total bookings with $0 total revenue. 💰 **Average Performance**: $0 per booking, 0.0 nights average stay. 💡 **Recommendation**: Consider premium pricing strategies to increase average revenue." :=
  ⟨rfl, rfl, rfl⟩

/-- C7 amended: a missing required column is fatal inside the components —
metric aggregation and segmentation stop with a KeyError — but
generate_summary catches the error and answers with the zero-metric manual
fallback narrative instead of surfacing it to its caller. -/
theorem missing_column_fatal_amended (summarize : String → Except String String)
    (dfr : ReviewsDF) (dfb : BookingsDF) (h : dfb.hasTotalSpent = false) :
    metricsOf dfr dfb = Except.error "KeyError: \x27total_spent\x27"
    ∧ segment_customers dfb = Except.error "KeyError: \x27total_spent\x27"
    ∧ generate_summary summarize dfr dfb
      = generate_manual_summary dfr dfb [] 0 (PValue.fin 0) (PValue.fin 0) := by
  have hm : metricsOf dfr dfb = Except.error "KeyError: \x27total_spent\x27" := by
    unfold metricsOf
    rw [if_pos (by simp [h])]
  refine ⟨hm, ?_, ?_⟩
  · unfold segment_customers
    rw [if_pos (by simp [h])]
  · unfold generate_summary generate_summary_core
    rw [hm]

/-- C7 amended witness: instantiated on the concrete frame without the
total_spent column. -/
theorem missing_column_fatal_amended_witness :
    metricsOf rdf noTSdf = Except.error "KeyError: \x27total_spent\x27" :=
  (missing_column_fatal_amended throwingSumm rdf noTSdf rfl).1

/-- C8 counterexample: when the classifier pipeline throws, the sentiment
page propagates the error to its caller instead of recovering locally. -/
theorem classifier_failure_propagates_cex :
    sentimentAnalysisPage failingClassifier rdf
      = Except.error "CapabilityUnavailableError: classifier unreachable" := rfl

/-- C8 amended: a classifier failure is not recovered — analyze_sentiments
and the page that calls it propagate the error unchanged; graceful
zero-count degradation happens only when the sentiment column is absent,
in which case generate_summary uses the zeroed sentiment distribution. -/
theorem classifier_failure_amended
    (pipe : List String → Except String (List SentimentResult))
    (dfr : ReviewsDF) (e : String) (h1 : dfr.hasReview = true)
    (h2 : pipe (dfr.rows.map (fun r => r.review)) = Except.error e) :
    sentimentAnalysisPage pipe dfr = Except.error e
    ∧ analyze_sentiments pipe (dfr.rows.map (fun r => r.review)) = Except.error e
    ∧ (dfr.hasSentiment = false →
        sentimentCountsOf dfr = [("POSITIVE", 0), ("NEGATIVE", 0), ("NEUTRAL", 0)]) := by
  have ha : analyze_sentiments pipe (dfr.rows.map (fun r => r.review))
      = Except.error e := by
    unfold analyze_sentiments
    rw [h2]
  refine ⟨?_, ha, ?_⟩
  · unfold sentimentAnalysisPage
    rw [if_neg (by simp [h1]), ha]
  · intro hs
    unfold sentimentCountsOf
    rw [if_neg (by simp [hs])]

/-- C8 amended witness: instantiated with the throwing classifier and the
one-review frame. -/
theorem classifier_failure_amended_witness :
    sentimentAnalysisPage failingClassifier rdf
      = Except.error "CapabilityUnavailableError: classifier unreachable" :=
  (classifier_failure_amended failingClassifier rdf
    "CapabilityUnavailableError: classifier unreachable" rfl rfl).1

/-! ## Helper lemmas for the recommendation-part analysis -/

theorem data_head_append (s t : String) (c : Char) (h : s.data.head? = some c) :
    (s ++ t).data.head? = some c := by
  rw [String.data_append]
  cases hd : s.data with
  | nil => rw [hd] at h; simp at h
  | cons a l =>
    rw [hd] at h
    simp only [List.head?_cons, Option.some.injEq] at h
    subst h
    simp

theorem isRecPart_eq_false_of_head (s : String) (c : Char) (h1 : s.data.head? = some c)
    (h2 : c ≠ '💡') : isRecPart s = false := by
  unfold isRecPart
  rw [h1]
  simp [h2]

theorem filter_single_false {p : String → Bool} {s : String} (h : p s = false) :
    List.filter p [s] = [] := by
  simp [List.filter, h]

theorem satPart_no_rec (dfr : ReviewsDF) (sc : List (String × Nat)) :
    (satPart dfr sc).filter isRecPart = [] := by
  unfold satPart
  dsimp only
  split
  · split
    · apply filter_single_false
      apply isRecPart_eq_false_of_head _ '😊' _ (by decide)
      repeat apply data_head_append
      rfl
    · rfl
  · split
    · split
      · apply filter_single_false
        apply isRecPart_eq_false_of_head _ '😊' _ (by decide)
        repeat apply data_head_append
        rfl
      · rfl
    · rfl

theorem segPart_no_rec (dfb : BookingsDF) : (segPart dfb).filter isRecPart = [] := by
  unfold segPart
  split
  · split
    · rfl
    · apply filter_single_false
      apply isRecPart_eq_false_of_head _ '👥' _ (by decide)
      repeat apply data_head_append
      rfl
  · rfl

theorem isRecPart_recChosen (ar an : PValue) : isRecPart (recChosen ar an) = true := by
  unfold recChosen
  split
  · rfl
  · split <;> rfl

theorem recPart_filter_pos (nb : ℕ) (ar an : PValue) (h : 0 < nb) :
    (recPart nb ar an).filter isRecPart = [recChosen ar an] := by
  unfold recPart
  rw [if_pos h]
  simp [List.filter, isRecPart_recChosen ar an]

unseal Rat.add Rat.sub Rat.mul Rat.inv in
/-- C9 counterexample: with an empty bookings frame, avg revenue 100 is
below the 300 threshold, yet the manual narrative contains no
recommendation sentence at all — the recommendation block is guarded by a
non-empty bookings check. -/
theorem recommendation_missing_cex :
    pLt (PValue.fin 100) 300 = true
    ∧ (manualParts rdf emptyBk [] 0 (PValue.fin 100) (PValue.fin 5)).filter isRecPart = []
    ∧ generate_manual_summary rdf emptyBk [] 0 (PValue.fin 100) (PValue.fin 5)
      = "📊 **Business Overview**: 0 total bookings with $0 total revenue. 💰 **Average Performance**: $100 per booking, 5.0 nights average stay." :=
  ⟨rfl, rfl, rfl⟩

/-- C9 amended: when the bookings frame is non-empty, the manual narrative
contains exactly one recommendation sentence, chosen by priority — premium
pricing when avg revenue < 300, else stay-extension packages when
avg nights < 2, else continued monitoring; when the frame is empty no
recommendation sentence is emitted. -/
theorem recommendation_priority_amended (dfr : ReviewsDF) (dfb : BookingsDF)
    (sc : List (String × Nat)) (tr : ℚ) (ar an : PValue) (h : dfb.rows ≠ []) :
    (manualParts dfr dfb sc tr ar an).filter isRecPart = [recChosen ar an]
    ∧ (pLt ar 300 = true → recChosen ar an
        = "💡 **Recommendation**: Consider premium pricing strategies to increase average revenue.")
    ∧ (pLt ar 300 = false → pLt an 2 = true → recChosen ar an
        = "💡 **Recommendation**: Focus on extending guest stays with attractive packages.")
    ∧ (pLt ar 300 = false → pLt an 2 = false → recChosen ar an
        = "💡 **Recommendation**: Continue monitoring key metrics and customer feedback.") := by
  refine ⟨?_, ?_, ?_, ?_⟩
  · have hp1 : isRecPart ("📊 **Business Overview**: " ++ toString dfb.rows.length
        ++ " total bookings with $" ++ fmtComma0 tr ++ " total revenue.") = false := by
      apply isRecPart_eq_false_of_head _ '📊' _ (by decide)
      repeat apply data_head_append
      rfl
    have hp2 : isRecPart ("💰 **Average Performance**: $" ++ fmtPk 0 ar
        ++ " per booking, " ++ fmtPk 1 an ++ " nights average stay.") = false := by
      apply isRecPart_eq_false_of_head _ '💰' _ (by decide)
      repeat apply data_head_append
      rfl
    unfold manualParts
    rw [List.filter_cons_of_neg (by simp [hp1]), List.filter_cons_of_neg (by simp [hp2]),
      List.filter_append, List.filter_append, satPart_no_rec, segPart_no_rec,
      recPart_filter_pos _ _ _ (List.length_pos.mpr h)]
    rfl
  · intro hlt
    unfold recChosen
    rw [if_pos hlt]
  · intro hge hlt
    unfold recChosen
    rw [if_neg (by simp [hge]), if_pos hlt]
  · intro hge1 hge2
    unfold recChosen
    rw [if_neg (by simp [hge1]), if_neg (by simp [hge2])]

unseal Rat.add Rat.sub Rat.mul Rat.inv in
/-- C9 amended witness: on a non-empty frame the single recommendation is
present and each priority branch is realised by the chain. -/
theorem recommendation_priority_amended_witness :
    (manualParts rdf wdf [] 900 (PValue.fin 300) (PValue.fin 2)).filter isRecPart
      = [recChosen (PValue.fin 300) (PValue.fin 2)] :=
  (recommendation_priority_amended rdf wdf [] 900 (PValue.fin 300) (PValue.fin 2)
    (by decide)).1

/-- C10: the segment explainer always renders exactly three lines, one per
segment id, each in the fixed format; an empty segment does not make it
throw — its line reports the NaN marker for the three means and a member
count of 0. -/
theorem segment_explainer_total (rows : List BookingRow) (labels : List ℕ) :
    (explainSegments rows labels).length = 3
    ∧ (∀ i, i < 3 → (explainSegments rows labels).getD i ""
        = segmentLine i (groupOf rows labels i))
    ∧ (∀ i, i < 3 → groupOf rows labels i = [] →
        (explainSegments rows labels).getD i ""
          = "Segment " ++ toString i
            ++ ": avg nights = nan, avg spent = nan, avg spent/night = nan, count = 0") := by
  have hexp : explainSegments rows labels
      = [segmentLine 0 (groupOf rows labels 0), segmentLine 1 (groupOf rows labels 1),
         segmentLine 2 (groupOf rows labels 2)] := rfl
  refine ⟨by rw [hexp]; rfl, ?_, ?_⟩
  · intro i hi
    interval_cases i <;> rw [hexp] <;> rfl
  · intro i hi hempty
    interval_cases i <;>
      simp only [hexp, List.getD_cons_zero, List.getD_cons_succ] <;>
      rw [hempty] <;>
      rfl

/-- C10 witness: the line of an empty segment on the empty frame. -/
theorem segment_explainer_total_witness :
    (explainSegments [] []).getD 0 ""
      = "Segment 0: avg nights = nan, avg spent = nan, avg spent/night = nan, count = 0" :=
  (segment_explainer_total [] []).2.2 0 (by decide) (by decide)
